import Mathlib

/-!
Shallow embedding of the authorization and token-lifecycle subsystem of
Spautofy (src/authorize.rs, together with the config write in src/main.rs
and the endpoint macros in src/endpoints.rs).

Conventions of the embedding:
* `std::net::IpAddr` is modelled by `IpAddr` below; its `Display`
  implementation for the V4 case (the only case any concrete statement
  evaluates) is dotted-decimal, as in Rust.
* Machine integers are modelled by `Nat`/`Int`; the Rust cast
  `expires_in as u64` (i32 → u64, sign-extending) is `i32AsU64`, an
  explicit `% 2^64`.
* `Instant` is modelled by a `Nat` of whole seconds;
  `received_at.elapsed().as_secs()` is `now - received_at` (truncated
  subtraction, matching the nonnegative monotonic-clock duration).
* `rand`-based generation of `random_state` is nondeterministic in Rust;
  the fresh value is passed explicitly to `configOfFile`.
* Network effects of `try_get_access_token` are an explicit `HttpOutcome`
  argument: the transport error from `Client::execute`, or a response
  whose body does or does not deserialize as `Access`.  The `Bool`
  component of the result records whether the network call was reached.
* `eprintln!` + `exit(1)` in a route handler is the `RouteOutcome.abort`
  value, returned together with the (unchanged) config.
* `serde_json` serialization of a derived `Serialize` struct is modelled
  as the ordered list of (field name, JSON value) pairs, in declaration
  order, which is the field order serde emits.
-/

namespace Spautofy

/-- Model of `std::net::IpAddr` (authorize.rs uses `IpAddr` for the bind
address; the default is the V4 address `127.0.0.1`). -/
inductive IpAddr where
  | v4 (a b c d : Nat)
  | v6 (segments : List Nat)
deriving DecidableEq

/-- Display form of an address: dotted decimal for V4 (the form every concrete
claim evaluates); colon-separated segments for V6. -/
def IpAddr.display : IpAddr → String
  | .v4 a b c d =>
      toString a ++ "." ++ toString b ++ "." ++ toString c ++ "." ++ toString d
  | .v6 segments => String.intercalate ":" (segments.map toString)

/-- Model of `SpautofyConfigFile` (authorize.rs lines 19-25): the persisted config
file shape; `address` and `port` are optional. -/
structure SpautofyConfigFile where
  address : Option IpAddr
  port : Option Nat
  client_id : String
  client_secret : String
deriving DecidableEq

/-- Model of `SpautofyConfig` (authorize.rs lines 27-35): the in-memory config,
including the handshake session state (`user_auth_code`, `random_state`). -/
structure SpautofyConfig where
  address : IpAddr
  port : Nat
  client_id : String
  client_secret : String
  user_auth_code : Option String
  random_state : String
deriving DecidableEq

/-- Conversion `From<&SpautofyConfig> for SpautofyConfigFile` (authorize.rs 37-46). -/
def fileOfConfig (config : SpautofyConfig) : SpautofyConfigFile :=
  { address := some config.address
    port := some config.port
    client_id := config.client_id
    client_secret := config.client_secret }

/-- Conversion `From<SpautofyConfigFile> for SpautofyConfig` (authorize.rs 48-61).
`random_state()` draws 30 random alphanumeric characters; the drawn value
is the explicit argument `freshState`. -/
def configOfFile (file_config : SpautofyConfigFile) (freshState : String) :
    SpautofyConfig :=
  { address := file_config.address.getD (IpAddr.v4 127 0 0 1)
    port := file_config.port.getD 3000
    client_id := file_config.client_id
    client_secret := file_config.client_secret
    user_auth_code := none
    random_state := freshState }

/-- Model of `Access` (authorize.rs 63-71).  `expires_in` is an `i32`; `received_at`
is the `Instant` captured at struct construction, in whole seconds. -/
structure Access where
  access_token : String
  scope : String
  expires_in : Int
  refresh_token : String
  received_at : Nat
deriving DecidableEq

/-- The Rust cast `expires_in as u64` for an `i32` value: sign-extension,
i.e. reduction modulo `2^64` (nonnegative representative). -/
def i32AsU64 (n : Int) : Nat := (n % (2 ^ 64 : Int)).toNat

/-- Model of `Access::is_expired` (authorize.rs 74-76):
`self.received_at.elapsed().as_secs() > self.expires_in as u64`. -/
def Access.is_expired (a : Access) (now : Nat) : Bool :=
  decide (i32AsU64 a.expires_in < now - a.received_at)

/-- Model of `AuthorizeError` (authorize.rs 82-92).  `RequestError` wraps the
underlying `reqwest::Error`, modelled as its message string. -/
inductive AuthorizeError where
  | NoUserAuthCode
  | ExpiredUserCode
  | RequestError (err : String)
  | Unknown
deriving DecidableEq

/-- Model of `needs_auth` (authorize.rs 109-111). -/
def SpautofyConfig.needs_auth (config : SpautofyConfig) : Bool :=
  config.user_auth_code.isNone

/-- Model of `redirect_url` (authorize.rs 113-115):
`format!("http://{}:{}/callback", self.address, self.port)`. -/
def SpautofyConfig.redirect_url (config : SpautofyConfig) : String :=
  "http://" ++ config.address.display ++ ":" ++ toString config.port ++ "/callback"

/-- Constant `AUTHORIZATION_SCOPES` (authorize.rs 17). -/
def AUTHORIZATION_SCOPES : String :=
  "user-top-read playlist-read-private playlist-modify-private"

/-- Macro `authorization_endpoint!` (endpoints.rs 1-6). -/
def authorization_endpoint (path : String) : String :=
  "https://accounts.spotify.com" ++ path

/-- A built GET request: base URL plus query parameters in order
(the reqwest builder appends them in the order given). -/
structure HttpRequest where
  url : String
  query : List (String × String)
deriving DecidableEq

/-- Model of `auth_request` (authorize.rs 117-133): the authorization URL request. -/
def SpautofyConfig.auth_request (config : SpautofyConfig) : HttpRequest :=
  { url := authorization_endpoint "/authorize"
    query :=
      [("client_id", config.client_id),
       ("response_type", "code"),
       ("redirect_uri", config.redirect_url),
       ("scope", AUTHORIZATION_SCOPES),
       ("show_dialog", "true"),
       ("state", config.random_state)] }

/-- A built POST request to the token endpoint: form body and HTTP Basic
auth credentials (authorize.rs 135-151). -/
structure TokenRequest where
  url : String
  form : List (String × String)
  basic_auth_user : String
  basic_auth_pass : String
deriving DecidableEq

/-- Model of `access_token_request` (authorize.rs 135-151): fails with
`NoUserAuthCode` when no authorization code is stored. -/
def SpautofyConfig.access_token_request (config : SpautofyConfig) :
    Except AuthorizeError TokenRequest :=
  match config.user_auth_code with
  | none => .error .NoUserAuthCode
  | some code =>
      .ok { url := authorization_endpoint "/api/token"
            form := [("grant_type", "authorization_code"),
                     ("code", code),
                     ("redirect_uri", config.redirect_url)]
            basic_auth_user := config.client_id
            basic_auth_pass := config.client_secret }

/-- Outcome of the one network call in `try_get_access_token`:
`Client::execute` can fail with a transport error, or return a response
whose JSON body does (`response (some a)`) or does not (`response none`)
deserialize as `Access`. -/
inductive HttpOutcome where
  | transportError (err : String)
  | response (parsed : Option Access)
deriving DecidableEq

/-- Model of `try_get_access_token` (authorize.rs 160-184).  The `Bool` component
records whether the network call (`Client::execute`) was performed. -/
def try_get_access_token (config : SpautofyConfig) (old_access : Option Access)
    (now : Nat) (net : HttpOutcome) : Except AuthorizeError Access × Bool :=
  if config.user_auth_code.isNone then
    (.error .NoUserAuthCode, false)
  else
    let try_refresh :=
      match old_access with
      | some access => access.is_expired now
      | none => true
    if !try_refresh then
      (match old_access with
       | some access => .ok access
       | none => .error .Unknown, false)
    else
      match config.access_token_request with
      | .error e => (.error e, false)
      | .ok _ =>
          match net with
          | .transportError err => (.error (.RequestError err), true)
          | .response none => (.error .ExpiredUserCode, true)
          | .response (some access) => (.ok access, true)

/-- Model of `get_access_token` (authorize.rs 154-158): `try_get_access_token`
with `old_access = None`. -/
def get_access_token (config : SpautofyConfig) (now : Nat) (net : HttpOutcome) :
    Except AuthorizeError Access × Bool :=
  try_get_access_token config none now net

/-- Result of a route handler.  `abort` is `eprintln!` + `exit(1)`:
the process terminates and no state is changed. -/
inductive RouteOutcome where
  | abort
  | redirect (target : String)
  | content (body : String)
deriving DecidableEq

/-- Route `index` (authorize.rs 186-194). -/
def index (config : SpautofyConfig) : RouteOutcome :=
  if config.user_auth_code.isSome then .redirect "/done" else .redirect "/auth"

/-- Route `auth` (authorize.rs 220-225): builds the authorization request from
the current config and redirects to its URL; the config is not modified. -/
def auth (config : SpautofyConfig) : HttpRequest × SpautofyConfig :=
  (config.auth_request, config)

/-- Route `callback` (authorize.rs 227-250).  Returns the handler outcome and
the config after the handler ran (unchanged on every aborting branch,
since `exit(1)` precedes any assignment). -/
def callback (config : SpautofyConfig) (state : String)
    (code error : Option String) : RouteOutcome × SpautofyConfig :=
  if state ≠ config.random_state then
    (.abort, config)
  else
    match error with
    | some _ => (.abort, config)
    | none =>
        if code.isSome then
          (.redirect "/done", { config with user_auth_code := code })
        else
          (.abort, config)

/-- JSON values occurring in the two persisted-config serializations. -/
inductive Json where
  | str (s : String)
  | num (n : Nat)
  | null
deriving DecidableEq

/-- Serialization of `SpautofyConfigFile` via serde_json (derived
`Serialize`): fields in declaration order; `Option::None` is `null`,
an `IpAddr` serializes as its display string. -/
def SpautofyConfigFile.toJson (f : SpautofyConfigFile) : List (String × Json) :=
  [("address", match f.address with | some a => .str a.display | none => .null),
   ("port", match f.port with | some p => .num p | none => .null),
   ("client_id", .str f.client_id),
   ("client_secret", .str f.client_secret)]

/-- Serialization of the full `SpautofyConfig` via serde_json (derived
`Serialize`): all six fields, in declaration order. -/
def SpautofyConfig.toJson (config : SpautofyConfig) : List (String × Json) :=
  [("address", .str config.address.display),
   ("port", .num config.port),
   ("client_id", .str config.client_id),
   ("client_secret", .str config.client_secret),
   ("user_auth_code",
      match config.user_auth_code with | some s => .str s | none => .null),
   ("random_state", .str config.random_state)]

/-- Result of `done` (authorize.rs 196-218): outcome, the bytes written to the
config file (if any), and whether shutdown was signalled. -/
structure DoneResult where
  outcome : RouteOutcome
  written : Option (List (String × Json))
  shutdown : Bool
deriving DecidableEq

/-- Route `done` (authorize.rs 196-218): with no stored code, redirect to
`/auth`; otherwise write `SpautofyConfigFile::from(&config)` to the config
path, signal shutdown and answer with the completion message. -/
def done (config : SpautofyConfig) : DoneResult :=
  if config.user_auth_code.isNone then
    { outcome := .redirect "/auth", written := none, shutdown := false }
  else
    { outcome := .content "You successfully authorized the app. The web server is going to stop. You can close this window now."
      written := some (fileOfConfig config).toJson
      shutdown := true }

/-- The config write in `main` (main.rs 326-329):
`std::fs::write(config_path, serde_json::to_string_pretty(&config))`,
where `config` is the full `SpautofyConfig` returned by `authorize`. -/
def mainFinalWrite (config : SpautofyConfig) : List (String × Json) :=
  config.toJson

/-- A concrete config used by witnesses and counterexamples. -/
def sampleConfig : SpautofyConfig :=
  { address := IpAddr.v4 127 0 0 1
    port := 3000
    client_id := "abc"
    client_secret := "xyz"
    user_auth_code := none
    random_state := "S" }

/-- A concrete `Access` value used by witnesses. -/
def sampleAccess : Access :=
  { access_token := "tok"
    scope := AUTHORIZATION_SCOPES
    expires_in := 3600
    refresh_token := "ref"
    received_at := 100 }

/-- Claim C1: a `/callback` hit with `state` different from the
correlation token aborts fatally without storing any code; with matching
state, a present `error` aborts fatally; otherwise a present `code` is
stored in the session and the client redirected to `/done`; with both
`code` and `error` absent it aborts fatally; and no aborting branch
modifies `user_auth_code`. -/
theorem callback_state_check_and_code_storage (config : SpautofyConfig)
    (state : String) (code error : Option String) :
    (state ≠ config.random_state →
      callback config state code error = (.abort, config)) ∧
    (state = config.random_state → error.isSome →
      callback config state code error = (.abort, config)) ∧
    (state = config.random_state → error = none → code.isSome →
      callback config state code error =
        (.redirect "/done", { config with user_auth_code := code })) ∧
    (state = config.random_state → error = none → code = none →
      callback config state code error = (.abort, config)) ∧
    ((callback config state code error).1 = .abort →
      ((callback config state code error).2).user_auth_code
        = config.user_auth_code) := by
  unfold callback
  by_cases hs : state = config.random_state
  · subst hs
    cases error <;> cases code <;> simp
  · simp [hs]

/-- Witness for C1: the storing branch at concrete inputs. -/
theorem callback_state_check_and_code_storage_witness :
    callback sampleConfig "S" (some "C") none =
      (.redirect "/done", { sampleConfig with user_auth_code := some "C" }) :=
  (callback_state_check_and_code_storage sampleConfig "S" (some "C")
    none).2.2.1 rfl rfl rfl

/-- Claim C10: every config loaded from a persisted file starts with
`user_auth_code = None`, so `needs_auth` is true for it. -/
theorem fresh_config_needs_auth (file_config : SpautofyConfigFile)
    (freshState : String) :
    (configOfFile file_config freshState).user_auth_code = none ∧
    (configOfFile file_config freshState).needs_auth = true :=
  ⟨rfl, rfl⟩

/-- Claim C6: `is_expired` is exactly the threshold predicate
`elapsed > expires_in as u64`: it holds iff the elapsed time since receipt
exceeds the (cast) `expires_in`, the cast is the identity on the
nonnegative range the provider delivers, it is false at elapsed time zero,
and once true it stays true as time advances (so it becomes true exactly
once the threshold is crossed). -/
theorem is_expired_threshold (access : Access) (now later : Nat) :
    (access.is_expired now = true ↔
      i32AsU64 access.expires_in < now - access.received_at) ∧
    (0 ≤ access.expires_in → access.expires_in < 2 ^ 31 →
      i32AsU64 access.expires_in = access.expires_in.toNat) ∧
    access.is_expired access.received_at = false ∧
    (now ≤ later → access.is_expired now = true →
      access.is_expired later = true) := by
  refine ⟨by simp [Access.is_expired], ?_, by simp [Access.is_expired], ?_⟩
  · intro hnn hub
    have hlt : access.expires_in < 2 ^ 64 := lt_trans hub (by norm_num)
    rw [i32AsU64, Int.emod_eq_of_lt hnn hlt]
  · intro hle hnow
    simp only [Access.is_expired, decide_eq_true_eq] at hnow ⊢
    exact lt_of_lt_of_le hnow (Nat.sub_le_sub_right hle _)

/-- Witness for C6: the identity cast and the threshold at concrete
inputs. -/
theorem is_expired_threshold_witness :
    i32AsU64 sampleAccess.expires_in = Int.toNat sampleAccess.expires_in ∧
    sampleAccess.is_expired 4000 = true :=
  ⟨(is_expired_threshold sampleAccess 0 0).2.1 (by decide) (by decide),
   (is_expired_threshold sampleAccess 3701 4000).2.2.2 (by decide) (by decide)⟩

/-- Claim C8: the authorization request is a pure function of the config; its URL
is the provider `/authorize` endpoint and its query consists exactly of
`client_id`, `response_type=code`, the redirect URI derived from the bind
address and port, the fixed space-delimited scope list, `show_dialog=true`,
and `state` equal to the correlation token. -/
theorem auth_request_query_exact (config : SpautofyConfig) :
    config.auth_request.url = "https://accounts.spotify.com/authorize" ∧
    config.auth_request.query =
      [("client_id", config.client_id),
       ("response_type", "code"),
       ("redirect_uri",
         "http://" ++ config.address.display ++ ":" ++ toString config.port
           ++ "/callback"),
       ("scope", "user-top-read playlist-read-private playlist-modify-private"),
       ("show_dialog", "true"),
       ("state", config.random_state)] :=
  ⟨rfl, rfl⟩

/-- Claim C4: with a stored authorization code and a non-expired old `Access`,
`try_get_access_token` returns that same `Access` unchanged and performs
no network call. -/
theorem non_expired_token_pure_read (config : SpautofyConfig)
    (access : Access) (now : Nat) (net : HttpOutcome)
    (hcode : config.user_auth_code.isSome = true)
    (hfresh : access.is_expired now = false) :
    try_get_access_token config (some access) now net = (.ok access, false) := by
  cases h : config.user_auth_code with
  | none => rw [h] at hcode; simp at hcode
  | some c => simp [try_get_access_token, h, hfresh]

/-- Witness for C4: a non-expired token is returned as-is. -/
theorem non_expired_token_pure_read_witness :
    try_get_access_token { sampleConfig with user_auth_code := some "C" }
      (some sampleAccess) 100 (.response none) = (.ok sampleAccess, false) :=
  non_expired_token_pure_read _ _ _ _ (by decide) (by decide)

/-- Claim C5: without a stored authorization code the exchange fails with
`NoUserAuthCode` before any network call, whatever the network would do;
with a code, a transport failure surfaces as `RequestError` wrapping the
underlying error, and a provider rejection of the code (response body not
an `Access`) surfaces as `ExpiredUserCode`, a value distinct from every
`RequestError` — in all cases a value is returned, never a crash. -/
theorem token_exchange_error_taxonomy (config : SpautofyConfig)
    (old_access : Option Access) (now : Nat) (err : String) :
    (config.user_auth_code = none → ∀ net : HttpOutcome,
      try_get_access_token config old_access now net
        = (.error .NoUserAuthCode, false)) ∧
    (config.user_auth_code ≠ none →
      try_get_access_token config none now (.transportError err)
        = (.error (.RequestError err), true)) ∧
    (config.user_auth_code ≠ none →
      try_get_access_token config none now (.response none)
        = (.error .ExpiredUserCode, true)) ∧
    AuthorizeError.ExpiredUserCode ≠ AuthorizeError.RequestError err := by
  refine ⟨?_, ?_, ?_, by simp⟩
  · intro h net
    simp [try_get_access_token, h]
  · intro h
    cases hc : config.user_auth_code with
    | none => exact absurd hc h
    | some c =>
        simp [try_get_access_token, hc, SpautofyConfig.access_token_request]
  · intro h
    cases hc : config.user_auth_code with
    | none => exact absurd hc h
    | some c =>
        simp [try_get_access_token, hc, SpautofyConfig.access_token_request]

/-- Witness for C5: a transport failure at concrete inputs. -/
theorem token_exchange_error_taxonomy_witness :
    try_get_access_token { sampleConfig with user_auth_code := some "C" }
      none 0 (.transportError "net down")
      = (.error (.RequestError "net down"), true) :=
  (token_exchange_error_taxonomy
    { sampleConfig with user_auth_code := some "C" } none 0 "net down").2.1
    (by simp)

/-- Claim C7: converting a config to the file shape and loading it back preserves
`client_id`, `client_secret`, address and port; and loading a file that
omits `address` and `port` applies the defaults `127.0.0.1` and `3000`, so
its derived redirect URI is `http://127.0.0.1:3000/callback`. -/
theorem config_file_roundtrip (config : SpautofyConfig)
    (file_config : SpautofyConfigFile) (freshState : String) :
    ((configOfFile (fileOfConfig config) freshState).client_id
        = config.client_id ∧
     (configOfFile (fileOfConfig config) freshState).client_secret
        = config.client_secret ∧
     (configOfFile (fileOfConfig config) freshState).address = config.address ∧
     (configOfFile (fileOfConfig config) freshState).port = config.port) ∧
    (file_config.address = none → file_config.port = none →
      (configOfFile file_config freshState).address = IpAddr.v4 127 0 0 1 ∧
      (configOfFile file_config freshState).port = 3000 ∧
      (configOfFile file_config freshState).redirect_url
        = "http://127.0.0.1:3000/callback") := by
  refine ⟨⟨rfl, rfl, rfl, rfl⟩, ?_⟩
  intro ha hp
  have h : configOfFile file_config freshState =
      { address := IpAddr.v4 127 0 0 1
        port := 3000
        client_id := file_config.client_id
        client_secret := file_config.client_secret
        user_auth_code := none
        random_state := freshState } := by
    simp [configOfFile, ha, hp]
  rw [h]
  refine ⟨rfl, rfl, ?_⟩
  simp only [SpautofyConfig.redirect_url, IpAddr.display]
  rfl

/-- Witness for C7: the scenario config `{client_id: "abc",
client_secret: "xyz"}` with no address or port. -/
theorem config_file_roundtrip_witness :
    (configOfFile
        { address := none, port := none, client_id := "abc",
          client_secret := "xyz" } "S").redirect_url
      = "http://127.0.0.1:3000/callback" :=
  ((config_file_roundtrip sampleConfig
      { address := none, port := none, client_id := "abc",
        client_secret := "xyz" } "S").2 rfl rfl).2.2

/-- A config holding a captured authorization code, as it is after a
successful callback. -/
def leakConfig : SpautofyConfig :=
  { sampleConfig with user_auth_code := some "thecode" }

/-- Counterexample to C2: the write performed by `main` (main.rs 326-329)
serializes the full `SpautofyConfig`, so the persisted file contains
`user_auth_code` and `random_state` and its field list is not
`[address, port, client_id, client_secret]`. -/
theorem main_write_includes_auth_code_counterexample :
    ("user_auth_code", Json.str "thecode") ∈ mainFinalWrite leakConfig ∧
    ("random_state", Json.str "S") ∈ mainFinalWrite leakConfig ∧
    (mainFinalWrite leakConfig).map Prod.fst ≠
      ["address", "port", "client_id", "client_secret"] := by decide

/-- Claim C2 as amended: the `done` handler persists exactly the JSON object
with fields `address`, `port`, `client_id`, `client_secret` (no token
material); but the later write in `main` persists the full config, whose
fields additionally include `user_auth_code` and `random_state`. -/
theorem persisted_config_fields (config : SpautofyConfig) :
    ((fileOfConfig config).toJson).map Prod.fst
      = ["address", "port", "client_id", "client_secret"] ∧
    (config.user_auth_code.isSome = true →
      (done config).written = some ((fileOfConfig config).toJson)) ∧
    (mainFinalWrite config).map Prod.fst
      = ["address", "port", "client_id", "client_secret",
         "user_auth_code", "random_state"] := by
  refine ⟨rfl, ?_, rfl⟩
  intro h
  cases hc : config.user_auth_code with
  | none => rw [hc] at h; simp at h
  | some c => simp [done, hc]

/-- Witness for C2 (amended): the `done` write at a concrete config. -/
theorem persisted_config_fields_witness :
    (done leakConfig).written = some ((fileOfConfig leakConfig).toJson) :=
  (persisted_config_fields leakConfig).2.1 (by decide)

/-- Counterexample to C3: two successive `/auth` hits on the same session
use the same correlation token — the second hit does not regenerate it. -/
theorem auth_reuses_token_counterexample :
    (auth (auth sampleConfig).2).1.query.lookup "state"
      = (auth sampleConfig).1.query.lookup "state" ∧
    (auth sampleConfig).1.query.lookup "state" = some "S" := by decide

/-- Claim C3 as amended: each `/auth` hit redirects to the authorization request
built from the current config and leaves the config unchanged; the `state`
parameter it carries is the field `random_state`, which is generated
once when the config is loaded from file — so a second `/auth` hit within
one listener run reuses the same correlation token. -/
theorem auth_reuses_correlation_token (config : SpautofyConfig) :
    auth config = (config.auth_request, config) ∧
    (auth (auth config).2).1 = (auth config).1 ∧
    (auth config).1.query.lookup "state" = some config.random_state ∧
    ∀ (file_config : SpautofyConfigFile) (freshState : String),
      (configOfFile file_config freshState).random_state = freshState :=
  ⟨rfl, rfl, rfl, fun _ _ => rfl⟩

/-- An `Access` whose `expires_in` is the most negative `i32`. -/
def negAccess : Access :=
  { access_token := "t"
    scope := "s"
    expires_in := -2147483648
    refresh_token := "r"
    received_at := 0 }

/-- Counterexample to C9: for `expires_in = -2^31`, the elapsed time
`2^64 - 1` is representable in u64 seconds and `is_expired` is `true`
there, so a negative `expires_in` is not unexpired for *every* u64
elapsed time. -/
theorem negative_expiry_counterexample :
    negAccess.expires_in < 0 ∧
    2 ^ 64 - 1 < 2 ^ 64 ∧
    negAccess.is_expired (2 ^ 64 - 1) = true := by decide

/-- Claim C9 as amended: for a negative `expires_in` (within i32 range), the cast
to u64 wraps to `2^64 + expires_in`, which is at least `2^63`; hence the
token is not considered expired for any elapsed time up to that wrapped
bound (in particular never within the first `2^63` seconds), though elapsed
times beyond the bound — still representable in u64 — do report expiry. -/
theorem negative_expiry_wraps (access : Access) (now : Nat)
    (hlo : -(2 ^ 31) ≤ access.expires_in) (hneg : access.expires_in < 0) :
    i32AsU64 access.expires_in = (2 ^ 64 + access.expires_in).toNat ∧
    2 ^ 63 ≤ i32AsU64 access.expires_in ∧
    (now - access.received_at ≤ i32AsU64 access.expires_in →
      access.is_expired now = false) := by
  have hp31 : ((2 : Int) ^ 31) = 2147483648 := by norm_num
  have hp64 : ((2 : Int) ^ 64) = 18446744073709551616 := by norm_num
  rw [hp31] at hlo
  have hmod : access.expires_in % (2 ^ 64 : Int)
      = 2 ^ 64 + access.expires_in := by
    rw [hp64] at *
    omega
  have h1 : i32AsU64 access.expires_in = (2 ^ 64 + access.expires_in).toNat := by
    rw [i32AsU64, hmod]
  refine ⟨h1, ?_, ?_⟩
  · rw [h1, hp64]
    omega
  · intro hle
    simp only [Access.is_expired, decide_eq_false_iff_not]
    omega

/-- Witness for C9 (amended): the wrapped token is unexpired after eleven
days. -/
theorem negative_expiry_wraps_witness :
    negAccess.is_expired 1000000 = false :=
  (negative_expiry_wraps negAccess 1000000 (by decide) (by decide)).2.2
    (by decide)

end Spautofy
